import Mathlib

/-!
Shallow embedding of the `utest` single-header unit-test harness
(`src/utest/utest.h`).

The harness keeps process-wide counters (`utest_n_cases`, `utest_n_checks`,
`utest_n_failures`), a module name and a case name, and writes diagnostic
lines to standard output.  We model this state explicitly and translate each
macro of the header into a Lean function on that state.

User-supplied expressions (check predicates, operands of relational checks,
units of work for exception checks) may have side effects; we model them as
state transformers over an abstract effect state `σ`, so that "evaluated
exactly once" becomes a provable equation on the final effect state.

Exceptions never propagate out of the harness (the classifier catches
everything, a critical failure calls `exit` which does not unwind), so a unit
of work is modelled as returning either normal completion or a raised
exception value, and each harness function is total.

A literal `\x7b` / `\x7d` in an output string is the brace character written
by the corresponding `<<` in the header.
-/

/-- Process exit status: `exit(EXIT_SUCCESS)` or `exit(EXIT_FAILURE)`. -/
inductive ExitStatus where
  | success
  | failure
deriving DecidableEq, Repr

/-- A C++ exception object: whether it derives from `std::exception`
(and is hence caught by `catch (std::exception&)`), and its `what()` text. -/
structure Exn where
  isStd : Bool
  what : String
deriving DecidableEq, Repr

/-- Result of running a user-supplied unit of work: it either returns
normally or raises an exception. -/
inductive WorkResult where
  | ok
  | raised (e : Exn)
deriving DecidableEq, Repr

/-- A user-supplied unit of work with side effects over an effect state `σ`. -/
def Work (σ : Type) : Type := σ → σ × WorkResult

/-- A user-supplied operand expression producing a value of type `α`,
with side effects over an effect state `σ`. -/
def Expr (σ α : Type) : Type := σ → σ × α

/-- The source location (`__FILE__`, `__LINE__`) stamped into diagnostics. -/
structure SrcLoc where
  file : String
  line : Nat
deriving DecidableEq, Repr

/-- The process-wide state of the harness: the globals of the header plus the
accumulated standard-output lines. -/
structure UState where
  utest_module_name : String
  utest_case_name : String
  utest_n_cases : Nat
  utest_n_checks : Nat
  utest_n_failures : Nat
  out : List String
deriving DecidableEq, Repr

/-- Macro `UTEST_BEGIN_MODULE(name)`: globals start zero-initialized and the
module name is set once at entry to `main`. -/
def utest_begin_module (name : String) : UState :=
  { utest_module_name := name
    utest_case_name := ""
    utest_n_cases := 0
    utest_n_checks := 0
    utest_n_failures := 0
    out := [] }

/-- Macro `UTEST_CASE(name)`: bump the case counter, overwrite the case label and
announce the case. -/
def utest_case (name : String) (st : UState) : UState :=
  { st with
    utest_n_cases := st.utest_n_cases + 1
    utest_case_name := name
    out := st.out ++
      ["running test case [" ++ st.utest_module_name ++ "/" ++ name ++ "] ..."] }

/-- The `enum class exception_status` of the header. -/
inductive exception_status where
  | none
  | expected
  | unexpected
deriving DecidableEq, Repr

/-- Classification performed by `check_throw<texception>` on a finished unit of work:
normal return is `none`; a raised exception caught by `catch (texception&)`
(membership decided by `catches`) is `expected`; any other raised exception
is caught by `catch (...)` and is `unexpected`. -/
def check_throw (catches : Exn → Bool) : WorkResult → exception_status
  | .ok => .none
  | .raised e => if catches e then .expected else .unexpected

/-- Function `check_throw<texception>(op)`: invoke the unit of work (once), classify
the outcome, absorb any exception. -/
def check_throw_run (catches : Exn → Bool) (op : Work σ) (s : σ) :
    σ × exception_status :=
  let r := op s
  (r.1, check_throw catches r.2)

/-- Macro `UTEST_HANDLE_FAILURE()`: bump the failure counter and emit the
diagnostic line `FILE:LINE: [module/case` followed by `tail`. -/
def utest_handle_failure (loc : SrcLoc) (st : UState) (tail : String) : UState :=
  { st with
    utest_n_failures := st.utest_n_failures + 1
    out := st.out ++
      [loc.file ++ ":" ++ toString loc.line ++ ": [" ++
       st.utest_module_name ++ "/" ++ st.utest_case_name ++ tail] }

/-- Result of one check inside the module body: either control flows to the
next statement, or the process exited (the `exit` of a critical failure). -/
inductive StepResult (σ : Type) where
  | next (st : UState) (s : σ)
  | exited (st : UState) (s : σ) (code : ExitStatus)

/-- The harness state carried by a step result. -/
def StepResult.ustate : StepResult σ → UState
  | .next st _ => st
  | .exited st _ _ => st

/-- The user effect state carried by a step result. -/
def StepResult.estate : StepResult σ → σ
  | .next _ s => s
  | .exited _ s _ => s

/-- Macro `UTEST_HANDLE_CRITICAL(critical)` applied after a recorded failure:
`exit(EXIT_FAILURE)` when critical, otherwise fall through. -/
def utest_handle_critical (critical : Bool) (st : UState) (s : σ) :
    StepResult σ :=
  if critical then .exited st s .failure else .next st s

/-- Macro `UTEST_EVALUATE(check, critical)`: bump the check counter, evaluate the
predicate once; on `false` record the failure with its diagnostic and apply
the critical rule. -/
def utest_evaluate (loc : SrcLoc) (exprText : String) (check : Expr σ Bool)
    (critical : Bool) (st : UState) (s : σ) : StepResult σ :=
  let st1 := { st with utest_n_checks := st.utest_n_checks + 1 }
  let r := check s
  if r.2 then .next st1 r.1
  else
    utest_handle_critical critical
      (utest_handle_failure loc st1
        ("]: check \x7b" ++ exprText ++ "\x7d failed!")) r.1

/-- Macro `UTEST_THROW(call, exception, critical)`: bump the check counter, run the
call through `check_throw`, then branch on the outcome; `expected` passes,
`none` and `unexpected` each record a failure with its own diagnostic and
apply the critical rule. -/
def utest_throw (loc : SrcLoc) (callText exnText : String)
    (catches : Exn → Bool) (call : Work σ) (critical : Bool)
    (st : UState) (s : σ) : StepResult σ :=
  let st1 := { st with utest_n_checks := st.utest_n_checks + 1 }
  let r := check_throw_run catches call s
  match r.2 with
  | .none =>
      utest_handle_critical critical
        (utest_handle_failure loc st1
          ("]: call \x7b" ++ callText ++ "\x7d does not throw!")) r.1
  | .expected => .next st1 r.1
  | .unexpected =>
      utest_handle_critical critical
        (utest_handle_failure loc st1
          ("]: call \x7b" ++ callText ++ "\x7d does not throw \x7b" ++
           exnText ++ "\x7d!")) r.1

/-- Macro `UTEST_NOTHROW(call, critical)`: bump the check counter, run the call
through `check_throw<std::exception>`; `none` passes, both exception
outcomes record the same failure and apply the critical rule. -/
def utest_nothrow (loc : SrcLoc) (callText : String) (call : Work σ)
    (critical : Bool) (st : UState) (s : σ) : StepResult σ :=
  let st1 := { st with utest_n_checks := st.utest_n_checks + 1 }
  let r := check_throw_run (fun e => e.isStd) call s
  match r.2 with
  | .none => .next st1 r.1
  | .expected | .unexpected =>
      utest_handle_critical critical
        (utest_handle_failure loc st1
          ("]: call \x7b" ++ callText ++ "\x7d throws!")) r.1

/-- Macro `UTEST_EVALUATE_BINARY_OP(left, right, op, critical)`: bump the check
counter, evaluate `left` then `right` exactly once each into `res_left`,
`res_right`, test the relation; on failure emit a diagnostic carrying both
rendered operand values and the relation symbol, then apply the critical
rule. -/
def utest_evaluate_binary_op (loc : SrcLoc) (exprText opText : String)
    (cmp : α → α → Bool) (render : α → String) (left right : Expr σ α)
    (critical : Bool) (st : UState) (s : σ) : StepResult σ :=
  let st1 := { st with utest_n_checks := st.utest_n_checks + 1 }
  let rl := left s
  let rr := right rl.1
  if cmp rl.2 rr.2 then .next st1 rr.1
  else
    utest_handle_critical critical
      (utest_handle_failure loc st1
        ("]: check \x7b" ++ exprText ++ "\x7d failed \x7b" ++
         render rl.2 ++ " " ++ opText ++ " " ++ render rr.2 ++ "\x7d!")) rr.1

/-- Macro `UTEST_EVALUATE_LESS(left, right, critical)`:
`UTEST_EVALUATE_BINARY_OP(left, right, <, critical)` over numeric values
(modelled as rationals). -/
def utest_evaluate_less (loc : SrcLoc) (exprText : String)
    (render : ℚ → String) (left right : Expr σ ℚ) (critical : Bool)
    (st : UState) (s : σ) : StepResult σ :=
  utest_evaluate_binary_op loc exprText "<" (fun a b => decide (a < b))
    render left right critical st s

/-- Macro `UTEST_EVALUATE_CLOSE(left, right, epsilon, critical)`:
`UTEST_EVALUATE_LESS(std::fabs((left) - (right)),
epsilon * (1 + std::fabs((left)) + std::fabs((right))), critical)`.
Each user operand expression appears once in each composed operand of the
less-than check, so it is evaluated there in the order left, right. -/
def utest_evaluate_close (loc : SrcLoc) (exprText : String)
    (render : ℚ → String) (left right : Expr σ ℚ) (epsilon : ℚ)
    (critical : Bool) (st : UState) (s : σ) : StepResult σ :=
  utest_evaluate_less loc exprText render
    (fun s0 =>
      let rl := left s0
      let rr := right rl.1
      (rr.1, |rl.2 - rr.2|))
    (fun s0 =>
      let rl := left s0
      let rr := right rl.1
      (rr.1, epsilon * (1 + |rl.2| + |rr.2|)))
    critical st s

/-- The pluralization suffix the summary line appends to `"check"`:
`(utest_n_checks > 0 ? "s" : "")`. -/
def check_plural (n : Nat) : String := if n > 0 then "s" else ""

/-- The summary line of the success branch of `UTEST_END_MODULE()`. -/
def summary_success (nchecks : Nat) : String :=
  "  no errors detected in " ++ toString nchecks ++ " check" ++
    check_plural nchecks ++ "."

/-- The summary line of the failure branch of `UTEST_END_MODULE()`. -/
def summary_failure (nfailures nchecks : Nat) : String :=
  "  failed with " ++ toString nfailures ++ " errors in " ++
    toString nchecks ++ " check" ++ check_plural nchecks ++ "!"

/-- The branch `if (utest_n_failures > 0) ... else ...` of
`UTEST_END_MODULE()`: print one summary line and exit. -/
def utest_end_module (st : UState) : UState × ExitStatus :=
  if st.utest_n_failures > 0 then
    ({ st with out := st.out ++ [summary_failure st.utest_n_failures st.utest_n_checks] },
     .failure)
  else
    ({ st with out := st.out ++ [summary_success st.utest_n_checks] },
     .success)

/-- How the module body finished: it reached the end-module block, the
process already exited (critical failure), or an uncaught exception escaped
the body (to be caught by the handlers closing `UTEST_END_MODULE()`). -/
inductive BodyResult (σ : Type) where
  | finished (st : UState) (s : σ)
  | exitedEarly (st : UState) (s : σ) (code : ExitStatus)
  | raisedStd (st : UState) (what : String)
  | raisedOther (st : UState)

/-- The whole of `main` after the body: the end-module block on normal
completion, nothing more after an in-body `exit`, and the two `catch`
handlers for uncaught exceptions, each reporting and exiting with failure.
Every branch yields an exit status: nothing is rethrown past `main`. -/
def run_module (b : BodyResult σ) : UState × ExitStatus :=
  match b with
  | .finished st _ => utest_end_module st
  | .exitedEarly st _ code => (st, code)
  | .raisedStd st w =>
      ({ st with out := st.out ++
          [" failed with uncaught exception <" ++ w ++ ">!"] }, .failure)
  | .raisedOther st =>
      ({ st with out := st.out ++
          [" failed with uncaught unknown exception!"] }, .failure)

/-- A module body as a sequence of checks, run in program order; an `exit`
inside a check (critical failure) stops the run at once, before any later
check. -/
def run_checks : List (UState → σ → StepResult σ) → UState → σ → BodyResult σ
  | [], st, s => .finished st s
  | c :: cs, st, s =>
      match c st s with
      | .next st2 s2 => run_checks cs st2 s2
      | .exited st2 s2 code => .exitedEarly st2 s2 code

/-- The effect of one check on the counters, as seen from outside: the check
counter grows by one and the failure counter grows by zero or one. -/
def check_delta (st st2 : UState) : Prop :=
  st2.utest_n_checks = st.utest_n_checks + 1 ∧
  (st2.utest_n_failures = st.utest_n_failures ∨
   st2.utest_n_failures = st.utest_n_failures + 1)

instance : DecidablePred fun p : UState × UState => check_delta p.1 p.2 :=
  fun _ => by unfold check_delta; infer_instance

instance (st st2 : UState) : Decidable (check_delta st st2) := by
  unfold check_delta; infer_instance

/-- Pointwise order on the two check counters. -/
def counters_le (st st2 : UState) : Prop :=
  st.utest_n_checks ≤ st2.utest_n_checks ∧
  st.utest_n_failures ≤ st2.utest_n_failures

instance : IsTrans UState counters_le :=
  ⟨fun _ _ _ h h2 => ⟨le_trans h.1 h2.1, le_trans h.2 h2.2⟩⟩

theorem utest_handle_critical_ustate (critical : Bool) (st : UState) (s : σ) :
    (utest_handle_critical critical st s).ustate = st := by
  unfold utest_handle_critical
  split <;> rfl

theorem utest_handle_critical_estate (critical : Bool) (st : UState) (s : σ) :
    (utest_handle_critical critical st s).estate = s := by
  unfold utest_handle_critical
  split <;> rfl

theorem utest_evaluate_ustate (loc : SrcLoc) (exprText : String)
    (check : Expr σ Bool) (critical : Bool) (st : UState) (s : σ) :
    (utest_evaluate loc exprText check critical st s).ustate =
      if (check s).2 then { st with utest_n_checks := st.utest_n_checks + 1 }
      else utest_handle_failure loc
        { st with utest_n_checks := st.utest_n_checks + 1 }
        ("]: check \x7b" ++ exprText ++ "\x7d failed!") := by
  unfold utest_evaluate
  dsimp only
  split
  · rfl
  · rw [utest_handle_critical_ustate]

theorem utest_evaluate_binary_op_ustate (loc : SrcLoc) (exprText opText : String)
    (cmp : α → α → Bool) (render : α → String) (left right : Expr σ α)
    (critical : Bool) (st : UState) (s : σ) :
    (utest_evaluate_binary_op loc exprText opText cmp render left right
        critical st s).ustate =
      if cmp (left s).2 ((right (left s).1).2) then
        { st with utest_n_checks := st.utest_n_checks + 1 }
      else utest_handle_failure loc
        { st with utest_n_checks := st.utest_n_checks + 1 }
        ("]: check \x7b" ++ exprText ++ "\x7d failed \x7b" ++
         render (left s).2 ++ " " ++ opText ++ " " ++
         render ((right (left s).1).2) ++ "\x7d!") := by
  unfold utest_evaluate_binary_op
  dsimp only
  split
  · rfl
  · rw [utest_handle_critical_ustate]

theorem utest_evaluate_binary_op_estate (loc : SrcLoc) (exprText opText : String)
    (cmp : α → α → Bool) (render : α → String) (left right : Expr σ α)
    (critical : Bool) (st : UState) (s : σ) :
    (utest_evaluate_binary_op loc exprText opText cmp render left right
        critical st s).estate = (right (left s).1).1 := by
  unfold utest_evaluate_binary_op
  dsimp only
  split
  · rfl
  · rw [utest_handle_critical_estate]

theorem utest_throw_ustate (loc : SrcLoc) (callText exnText : String)
    (catches : Exn → Bool) (call : Work σ) (critical : Bool)
    (st : UState) (s : σ) :
    (utest_throw loc callText exnText catches call critical st s).ustate =
      match check_throw catches (call s).2 with
      | .none => utest_handle_failure loc
          { st with utest_n_checks := st.utest_n_checks + 1 }
          ("]: call \x7b" ++ callText ++ "\x7d does not throw!")
      | .expected => { st with utest_n_checks := st.utest_n_checks + 1 }
      | .unexpected => utest_handle_failure loc
          { st with utest_n_checks := st.utest_n_checks + 1 }
          ("]: call \x7b" ++ callText ++ "\x7d does not throw \x7b" ++
           exnText ++ "\x7d!") := by
  unfold utest_throw check_throw_run
  dsimp only
  split
  · rw [utest_handle_critical_ustate]
  · rfl
  · rw [utest_handle_critical_ustate]

theorem utest_throw_estate (loc : SrcLoc) (callText exnText : String)
    (catches : Exn → Bool) (call : Work σ) (critical : Bool)
    (st : UState) (s : σ) :
    (utest_throw loc callText exnText catches call critical st s).estate =
      (call s).1 := by
  unfold utest_throw check_throw_run
  dsimp only
  split
  · rw [utest_handle_critical_estate]
  · rfl
  · rw [utest_handle_critical_estate]

theorem utest_nothrow_ustate (loc : SrcLoc) (callText : String) (call : Work σ)
    (critical : Bool) (st : UState) (s : σ) :
    (utest_nothrow loc callText call critical st s).ustate =
      match check_throw (fun e => e.isStd) (call s).2 with
      | .none => { st with utest_n_checks := st.utest_n_checks + 1 }
      | .expected | .unexpected => utest_handle_failure loc
          { st with utest_n_checks := st.utest_n_checks + 1 }
          ("]: call \x7b" ++ callText ++ "\x7d throws!") := by
  unfold utest_nothrow check_throw_run
  dsimp only
  split
  · rfl
  · rw [utest_handle_critical_ustate]
  · rw [utest_handle_critical_ustate]

theorem utest_handle_failure_counts (loc : SrcLoc) (st : UState) (tail : String) :
    (utest_handle_failure loc st tail).utest_n_checks = st.utest_n_checks ∧
    (utest_handle_failure loc st tail).utest_n_failures =
      st.utest_n_failures + 1 := by
  unfold utest_handle_failure
  exact ⟨rfl, rfl⟩

theorem check_delta_imp_counters_le {st st2 : UState}
    (h : check_delta st st2) : counters_le st st2 := by
  rcases h with ⟨h1, h2 | h2⟩ <;> exact ⟨by omega, by omega⟩

theorem check_delta_chain_inv {st : UState} {sts : List UState}
    (h : List.Chain check_delta st sts)
    (h0 : st.utest_n_failures ≤ st.utest_n_checks) :
    ∀ st2 ∈ sts, st2.utest_n_failures ≤ st2.utest_n_checks := by
  induction sts generalizing st with
  | nil => simp
  | cons b l ih =>
      cases h with
      | cons hd tl =>
          have hb : b.utest_n_failures ≤ b.utest_n_checks := by
            rcases hd with ⟨h1, h2 | h2⟩ <;> omega
          intro st2 hst2
          rcases List.mem_cons.mp hst2 with h2 | h2
          · exact h2 ▸ hb
          · exact ih tl hb st2 h2

theorem check_delta_chain_mono {st : UState} {sts : List UState}
    (h : List.Chain check_delta st sts) :
    List.Pairwise counters_le (st :: sts) := by
  have h2 : List.Chain counters_le st sts :=
    List.Chain.imp (fun _ _ hd => check_delta_imp_counters_le hd) h
  exact List.chain_iff_pairwise.mp h2

/-- C1: at module end the process exits with SUCCESS exactly when
`utest_n_failures = 0` and with FAILURE otherwise; the verdict is the pure
function `utest_n_failures == 0 ? SUCCESS : FAILURE` of the failure counter
alone, and an uncaught exception escaping the module body always yields
FAILURE. -/
theorem C1_verdict_from_failed_checks :
    (∀ st : UState, (utest_end_module st).2 =
        if st.utest_n_failures = 0 then ExitStatus.success
        else ExitStatus.failure) ∧
    (∀ (σ : Type) (st : UState) (s : σ),
      (run_module (BodyResult.finished st s)).2 = ExitStatus.success ↔
        st.utest_n_failures = 0) ∧
    (∀ (σ : Type) (st : UState) (w : String),
      (run_module (BodyResult.raisedStd st w : BodyResult σ)).2 =
        ExitStatus.failure) ∧
    (∀ (σ : Type) (st : UState),
      (run_module (BodyResult.raisedOther st : BodyResult σ)).2 =
        ExitStatus.failure) := by
  refine ⟨fun st => ?_, fun σ st s => ?_, fun σ st w => rfl, fun σ st => rfl⟩
  · by_cases h : st.utest_n_failures = 0 <;>
      simp [utest_end_module, h, Nat.pos_of_ne_zero]
  · show (utest_end_module st).2 = ExitStatus.success ↔ _
    by_cases h : st.utest_n_failures = 0 <;>
      simp [utest_end_module, h, Nat.pos_of_ne_zero]

/-- C4: the classifier runs the unit of work exactly once (its side effects
on the state of the caller are exactly one invocation of `op`), returns `none`
iff the work returned normally, `expected` iff it raised an exception the
designated handler catches, `unexpected` iff it raised any other exception;
being a total function into `exception_status`, it propagates nothing. -/
theorem C4_outcome_classifier :
    ∀ (σ : Type) (catches : Exn → Bool) (op : Work σ) (s : σ),
    (check_throw_run catches op s).1 = (op s).1 ∧
    ((check_throw_run catches op s).2 = exception_status.none ↔
      (op s).2 = WorkResult.ok) ∧
    ((check_throw_run catches op s).2 = exception_status.expected ↔
      ∃ e, (op s).2 = WorkResult.raised e ∧ catches e = true) ∧
    ((check_throw_run catches op s).2 = exception_status.unexpected ↔
      ∃ e, (op s).2 = WorkResult.raised e ∧ catches e = false) := by
  intro σ catches op s
  refine ⟨rfl, ?_, ?_, ?_⟩ <;>
    · show check_throw catches (op s).2 = _ ↔ _
      rcases h : (op s).2 with _ | e
      · simp [check_throw]
      · by_cases hc : catches e <;> simp [check_throw, hc]

/-- C7: an uncaught exception escaping the module body is caught by the
handlers closing `UTEST_END_MODULE()`: the process exits with FAILURE, a
line reporting the exception (containing its `what()` description in the
`std::exception` case) is printed, and nothing is rethrown — `run_module`
yields an exit status on every input. -/
theorem C7_uncaught_exception_reported :
    ∀ (σ : Type) (st : UState) (w : String),
    (run_module (BodyResult.raisedStd st w : BodyResult σ)).2 =
      ExitStatus.failure ∧
    (∃ a b : String,
      (run_module (BodyResult.raisedStd st w : BodyResult σ)).1.out =
        st.out ++ [a ++ w ++ b]) ∧
    (run_module (BodyResult.raisedOther st : BodyResult σ)).2 =
      ExitStatus.failure ∧
    (run_module (BodyResult.raisedOther st : BodyResult σ)).1.out =
      st.out ++ [" failed with uncaught unknown exception!"] := by
  intro σ st w
  exact ⟨rfl, ⟨" failed with uncaught exception <", ">!", rfl⟩, rfl, rfl⟩

/-- C8 (divergence witness): the pluralization of the summary is
`(utest_n_checks > 0 ? "s" : "")`, so a run with exactly one evaluated check
reports `"1 checks"` (and a run with zero checks reports `"0 check"`),
not the singular form `"1 check"` the claim states. -/
theorem C8_pluralization_divergence :
    check_plural 1 = "s" ∧ check_plural 0 = "" ∧
    summary_success 1 = "  no errors detected in 1 checks." ∧
    summary_success 0 = "  no errors detected in 0 check." ∧
    (utest_end_module
      { utest_module_name := "m", utest_case_name := "c", utest_n_cases := 1,
        utest_n_checks := 1, utest_n_failures := 1, out := [] }).1.out =
      ["  failed with 1 errors in 1 checks!"] := by
  exact ⟨rfl, rfl, rfl, rfl, rfl⟩

theorem utest_evaluate_close_as_less (loc : SrcLoc) (exprText : String)
    (render : ℚ → String) (left right : Expr σ ℚ) (epsilon : ℚ)
    (critical : Bool) (st : UState) (s : σ) :
    utest_evaluate_close loc exprText render left right epsilon critical st s =
      utest_evaluate_binary_op loc exprText "<" (fun a b => decide (a < b))
        render
        (fun s0 => ((right (left s0).1).1,
          |(left s0).2 - (right (left s0).1).2|))
        (fun s0 => ((right (left s0).1).1,
          epsilon * (1 + |(left s0).2| + |(right (left s0).1).2|)))
        critical st s := rfl

/-- C2: each check family bumps `utest_n_checks` by exactly one and bumps
`utest_n_failures` by one exactly when the check fails (leaving it unchanged
when it passes); hence every check satisfies `check_delta`, and along any
sequence of checks from the zero-initialized module state the invariant
`utest_n_failures ≤ utest_n_checks` holds and both counters are
non-decreasing. -/
theorem C2_counter_discipline :
    (∀ (σ : Type) (loc : SrcLoc) (exprText : String) (check : Expr σ Bool)
       (critical : Bool) (st : UState) (s : σ),
      (utest_evaluate loc exprText check critical st s).ustate.utest_n_checks =
          st.utest_n_checks + 1 ∧
      (utest_evaluate loc exprText check critical st s).ustate.utest_n_failures =
          st.utest_n_failures + (if (check s).2 then 0 else 1)) ∧
    (∀ (σ α : Type) (loc : SrcLoc) (exprText opText : String)
       (cmp : α → α → Bool) (render : α → String) (left right : Expr σ α)
       (critical : Bool) (st : UState) (s : σ),
      (utest_evaluate_binary_op loc exprText opText cmp render left right
          critical st s).ustate.utest_n_checks = st.utest_n_checks + 1 ∧
      (utest_evaluate_binary_op loc exprText opText cmp render left right
          critical st s).ustate.utest_n_failures = st.utest_n_failures +
            (if cmp (left s).2 ((right (left s).1).2) then 0 else 1)) ∧
    (∀ (σ : Type) (loc : SrcLoc) (exprText : String) (render : ℚ → String)
       (left right : Expr σ ℚ) (epsilon : ℚ) (critical : Bool)
       (st : UState) (s : σ),
      check_delta st (utest_evaluate_close loc exprText render left right
          epsilon critical st s).ustate) ∧
    (∀ (σ : Type) (loc : SrcLoc) (callText exnText : String)
       (catches : Exn → Bool) (call : Work σ) (critical : Bool)
       (st : UState) (s : σ),
      (utest_throw loc callText exnText catches call critical st
          s).ustate.utest_n_checks = st.utest_n_checks + 1 ∧
      (utest_throw loc callText exnText catches call critical st
          s).ustate.utest_n_failures = st.utest_n_failures +
            (if check_throw catches (call s).2 = exception_status.expected
             then 0 else 1)) ∧
    (∀ (σ : Type) (loc : SrcLoc) (callText : String) (call : Work σ)
       (critical : Bool) (st : UState) (s : σ),
      (utest_nothrow loc callText call critical st s).ustate.utest_n_checks =
          st.utest_n_checks + 1 ∧
      (utest_nothrow loc callText call critical st s).ustate.utest_n_failures =
          st.utest_n_failures +
            (if (call s).2 = WorkResult.ok then 0 else 1)) ∧
    (∀ (name : String) (sts : List UState),
      List.Chain check_delta (utest_begin_module name) sts →
      ∀ st2 ∈ sts, st2.utest_n_failures ≤ st2.utest_n_checks) ∧
    (∀ (st : UState) (sts : List UState),
      List.Chain check_delta st sts →
      List.Pairwise counters_le (st :: sts)) := by
  refine ⟨?_, ?_, ?_, ?_, ?_, ?_, ?_⟩
  · intro σ loc exprText check critical st s
    rw [utest_evaluate_ustate]
    split <;> simp [utest_handle_failure]
  · intro σ α loc exprText opText cmp render left right critical st s
    rw [utest_evaluate_binary_op_ustate]
    split <;> simp [utest_handle_failure]
  · intro σ loc exprText render left right epsilon critical st s
    rw [utest_evaluate_close_as_less, utest_evaluate_binary_op_ustate]
    constructor
    · split <;> simp [utest_handle_failure]
    · split <;> simp [utest_handle_failure]
  · intro σ loc callText exnText catches call critical st s
    rw [utest_throw_ustate]
    rcases h : check_throw catches (call s).2 <;>
      simp [utest_handle_failure]
  · intro σ loc callText call critical st s
    rw [utest_nothrow_ustate]
    rcases h : check_throw (fun e => e.isStd) (call s).2 with _ | _ | _
    · have hok : (call s).2 = WorkResult.ok := by
        rcases h2 : (call s).2 with _ | e
        · rfl
        · exfalso
          rw [h2] at h
          by_cases he : e.isStd <;> simp [check_throw, he] at h
      simp [hok, utest_handle_failure]
    · have hraised : (call s).2 ≠ WorkResult.ok := by
        intro h2
        rw [h2] at h
        simp [check_throw] at h
      simp [hraised, utest_handle_failure]
    · have hraised : (call s).2 ≠ WorkResult.ok := by
        intro h2
        rw [h2] at h
        simp [check_throw] at h
      simp [hraised, utest_handle_failure]
  · intro name sts h
    exact check_delta_chain_inv h (by simp [utest_begin_module])
  · intro st sts h
    exact check_delta_chain_mono h

/-- Witness for C2: a concrete one-step chain from the zeroed initial state
satisfying the chain hypotheses of the invariant and monotonicity parts. -/
theorem C2_counter_discipline_witness :
    (∀ st2 ∈ [UState.mk "m" "" 0 1 1 ["d"]],
      st2.utest_n_failures ≤ st2.utest_n_checks) ∧
    List.Pairwise counters_le
      (utest_begin_module "m" :: [UState.mk "m" "" 0 1 1 ["d"]]) := by
  have hch : List.Chain check_delta (utest_begin_module "m")
      [UState.mk "m" "" 0 1 1 ["d"]] := by
    constructor
    · exact ⟨rfl, Or.inr rfl⟩
    · exact List.Chain.nil
  exact ⟨C2_counter_discipline.2.2.2.2.2.1 "m" _ hch,
         C2_counter_discipline.2.2.2.2.2.2 _ _ hch⟩

/-- C3: a failing check with the critical flag set makes the run exit at
once with FAILURE: the body stops at that check (`exitedEarly`,
independently of the remaining checks `cs`), no later check runs (the check
counter moved by exactly one), and no module-end summary is printed (the
output is exactly the old output plus the diagnostic line of this check). -/
theorem C3_critical_failure_aborts :
    ∀ (σ : Type) (loc : SrcLoc) (exprText : String) (check : Expr σ Bool)
      (cs : List (UState → σ → StepResult σ)) (st : UState) (s : σ),
    (check s).2 = false →
    (∃ st2 s2,
      run_checks (utest_evaluate loc exprText check true :: cs) st s =
        BodyResult.exitedEarly st2 s2 ExitStatus.failure) ∧
    (run_module (run_checks (utest_evaluate loc exprText check true :: cs)
        st s)).2 = ExitStatus.failure ∧
    (run_module (run_checks (utest_evaluate loc exprText check true :: cs)
        st s)).1.utest_n_checks = st.utest_n_checks + 1 ∧
    (run_module (run_checks (utest_evaluate loc exprText check true :: cs)
        st s)).1.out = st.out ++
      [loc.file ++ ":" ++ toString loc.line ++ ": [" ++
       st.utest_module_name ++ "/" ++ st.utest_case_name ++
       ("]: check \x7b" ++ exprText ++ "\x7d failed!")] := by
  intro σ loc exprText check cs st s h
  have he : utest_evaluate loc exprText check true st s =
      StepResult.exited
        (utest_handle_failure loc
          { st with utest_n_checks := st.utest_n_checks + 1 }
          ("]: check \x7b" ++ exprText ++ "\x7d failed!"))
        (check s).1 ExitStatus.failure := by
    unfold utest_evaluate utest_handle_critical
    dsimp only
    rw [h]
    simp
  have hr : run_checks (utest_evaluate loc exprText check true :: cs) st s =
      BodyResult.exitedEarly
        (utest_handle_failure loc
          { st with utest_n_checks := st.utest_n_checks + 1 }
          ("]: check \x7b" ++ exprText ++ "\x7d failed!"))
        (check s).1 ExitStatus.failure := by
    unfold run_checks
    rw [he]
  rw [hr]
  exact ⟨⟨_, _, rfl⟩, rfl, rfl, rfl⟩

/-- Witness for C3: a critical boolean check that fails, followed by a
passing non-critical check that must never run; the process exits FAILURE
with only the one diagnostic printed. -/
theorem C3_critical_failure_aborts_witness :
    ((fun s : Unit => (s, false)) ()).2 = false ∧
    (run_module (run_checks
        [utest_evaluate (SrcLoc.mk "t.cpp" 5) "ping" (fun s : Unit => (s, false)) true,
         utest_evaluate (SrcLoc.mk "t.cpp" 6) "pong" (fun s : Unit => (s, true)) false]
        (utest_case "c" (utest_begin_module "m")) ())).2 = ExitStatus.failure := by
  refine ⟨rfl, ?_⟩
  have h := C3_critical_failure_aborts Unit (SrcLoc.mk "t.cpp" 5) "ping"
    (fun s => (s, false))
    [utest_evaluate (SrcLoc.mk "t.cpp" 6) "pong" (fun s => (s, true)) false]
    (utest_case "c" (utest_begin_module "m")) () rfl
  exact h.2.1

/-- C5: macro `UTEST_THROW` leaves the failure counter unchanged exactly when the
classified outcome is `expected`; on `none` and on `unexpected` it records a
failure with two distinct diagnostic lines (shown to differ for every call
text and exception text); `UTEST_NOTHROW` leaves the failure counter
unchanged exactly when the call raised nothing, failing on either exception
outcome with no designated exception kind in its interface. -/
theorem C5_throw_and_nothrow :
    ∀ (σ : Type) (loc : SrcLoc) (callText exnText : String)
      (catches : Exn → Bool) (call : Work σ) (critical : Bool)
      (st : UState) (s : σ),
    ((utest_throw loc callText exnText catches call critical st
        s).ustate.utest_n_failures = st.utest_n_failures ↔
      check_throw catches (call s).2 = exception_status.expected) ∧
    (check_throw catches (call s).2 = exception_status.none →
      (utest_throw loc callText exnText catches call critical st
          s).ustate.out = st.out ++
        [loc.file ++ ":" ++ toString loc.line ++ ": [" ++
         st.utest_module_name ++ "/" ++ st.utest_case_name ++
         ("]: call \x7b" ++ callText ++ "\x7d does not throw!")]) ∧
    (check_throw catches (call s).2 = exception_status.unexpected →
      (utest_throw loc callText exnText catches call critical st
          s).ustate.out = st.out ++
        [loc.file ++ ":" ++ toString loc.line ++ ": [" ++
         st.utest_module_name ++ "/" ++ st.utest_case_name ++
         ("]: call \x7b" ++ callText ++ "\x7d does not throw \x7b" ++
          exnText ++ "\x7d!")]) ∧
    ("]: call \x7b" ++ callText ++ "\x7d does not throw!" : String) ≠
      "]: call \x7b" ++ callText ++ "\x7d does not throw \x7b" ++
        exnText ++ "\x7d!" ∧
    ((utest_nothrow loc callText call critical st
        s).ustate.utest_n_failures = st.utest_n_failures ↔
      (call s).2 = WorkResult.ok) := by
  intro σ loc callText exnText catches call critical st s
  refine ⟨?_, ?_, ?_, ?_, ?_⟩
  · rw [utest_throw_ustate]
    rcases h : check_throw catches (call s).2 <;>
      simp [utest_handle_failure]
  · intro h
    rw [utest_throw_ustate, h]
    rfl
  · intro h
    rw [utest_throw_ustate, h]
    rfl
  · intro hEq
    have hlen := congrArg String.length hEq
    simp only [String.length_append] at hlen
    have h1 : String.length "\x7d does not throw!" = 17 := rfl
    have h2 : String.length "\x7d does not throw \x7b" = 18 := rfl
    have h3 : String.length "\x7d!" = 2 := rfl
    omega
  · rw [utest_nothrow_ustate]
    rcases h : check_throw (fun e => e.isStd) (call s).2 with _ | _ | _
    · have hok : (call s).2 = WorkResult.ok := by
        rcases h2 : (call s).2 with _ | e
        · rfl
        · exfalso
          rw [h2] at h
          by_cases he : e.isStd <;> simp [check_throw, he] at h
      simp [hok]
    · have hraised : (call s).2 ≠ WorkResult.ok := by
        intro h2
        rw [h2] at h
        simp [check_throw] at h
      simp [hraised, utest_handle_failure]
    · have hraised : (call s).2 ≠ WorkResult.ok := by
        intro h2
        rw [h2] at h
        simp [check_throw] at h
      simp [hraised, utest_handle_failure]

/-- Witness for C5: a call that raises nothing against an expectation to
throw, and a call raising an uncaught kind; both diagnostics are produced as
the theorem states. -/
theorem C5_throw_and_nothrow_witness :
    (utest_throw (SrcLoc.mk "t.cpp" 9) "f()" "err" (fun _ => true)
        (fun s : Unit => (s, WorkResult.ok)) false
        (utest_begin_module "m") ()).ustate.out =
      ["t.cpp:9: [m/]: call \x7bf()\x7d does not throw!"] ∧
    (utest_throw (SrcLoc.mk "t.cpp" 9) "g()" "err" (fun _ => false)
        (fun s : Unit => (s, WorkResult.raised (Exn.mk true "boom"))) false
        (utest_begin_module "m") ()).ustate.out =
      ["t.cpp:9: [m/]: call \x7bg()\x7d does not throw \x7berr\x7d!"] := by
  constructor
  · have h := (C5_throw_and_nothrow Unit (SrcLoc.mk "t.cpp" 9) "f()" "err"
      (fun _ => true) (fun s => (s, WorkResult.ok)) false
      (utest_begin_module "m") ()).2.1 rfl
    rw [h]
    rfl
  · have h := (C5_throw_and_nothrow Unit (SrcLoc.mk "t.cpp" 9) "g()" "err"
      (fun _ => false) (fun s => (s, WorkResult.raised (Exn.mk true "boom")))
      false (utest_begin_module "m") ()).2.2.1 rfl
    rw [h]
    rfl

/-- C6: for every pair of numeric values and tolerance, the
approximate-equality check leaves the failure counter unchanged (passes)
exactly when `|left - right| < epsilon * (1 + |left| + |right|)`, and it is
literally the strict less-than relational check applied to
`|left - right|` and `epsilon * (1 + |left| + |right|)`. -/
theorem C6_close_tolerance_formula :
    ∀ (loc : SrcLoc) (exprText : String) (render : ℚ → String)
      (l r epsilon : ℚ) (critical : Bool) (st : UState),
    ((utest_evaluate_close loc exprText render (fun s : Unit => (s, l))
        (fun s => (s, r)) epsilon critical st ()).ustate.utest_n_failures =
        st.utest_n_failures ↔ |l - r| < epsilon * (1 + |l| + |r|)) ∧
    utest_evaluate_close loc exprText render (fun s : Unit => (s, l))
        (fun s => (s, r)) epsilon critical st () =
      utest_evaluate_less loc exprText render
        (fun s : Unit => (s, |l - r|))
        (fun s => (s, epsilon * (1 + |l| + |r|))) critical st () := by
  intro loc exprText render l r epsilon critical st
  constructor
  · rw [utest_evaluate_close_as_less, utest_evaluate_binary_op_ustate]
    by_cases hlt : |l - r| < epsilon * (1 + |l| + |r|)
    · simp [hlt]
    · simp [hlt, utest_handle_failure]
  · rfl

/-- C9: a relational check evaluates each operand expression exactly once —
the final effect state is one application of `left` followed by one
application of `right`, whether the check passes or fails — and on failure
the diagnostic line carries both rendered operand values and the relation
symbol. -/
theorem C9_relational_once_and_diagnostic :
    ∀ (σ α : Type) (loc : SrcLoc) (exprText opText : String)
      (cmp : α → α → Bool) (render : α → String) (left right : Expr σ α)
      (critical : Bool) (st : UState) (s : σ),
    (utest_evaluate_binary_op loc exprText opText cmp render left right
        critical st s).estate = (right (left s).1).1 ∧
    (cmp (left s).2 ((right (left s).1).2) = false →
      (utest_evaluate_binary_op loc exprText opText cmp render left right
          critical st s).ustate.out = st.out ++
        [loc.file ++ ":" ++ toString loc.line ++ ": [" ++
         st.utest_module_name ++ "/" ++ st.utest_case_name ++
         ("]: check \x7b" ++ exprText ++ "\x7d failed \x7b" ++
          render (left s).2 ++ " " ++ opText ++ " " ++
          render ((right (left s).1).2) ++ "\x7d!")]) := by
  intro σ α loc exprText opText cmp render left right critical st s
  refine ⟨utest_evaluate_binary_op_estate loc exprText opText cmp render
    left right critical st s, ?_⟩
  intro h
  rw [utest_evaluate_binary_op_ustate]
  simp [h, utest_handle_failure]

/-- Witness for C9: a check `CHECK_EQUAL(2+2, 5)` with instrumented operands,
where each side-effect counter ends at one and the diagnostic carries the
evaluated values 4 and 5 with the relation. -/
theorem C9_relational_once_and_diagnostic_witness :
    (utest_evaluate_binary_op (SrcLoc.mk "t.cpp" 3) "2+2 == 5" "=="
        (fun a b : Nat => a == b) (fun n => toString n)
        (fun p : Nat × Nat => ((p.1 + 1, p.2), 2 + 2))
        (fun p : Nat × Nat => ((p.1, p.2 + 1), 5)) false
        (utest_begin_module "m") (0, 0)).estate = (1, 1) ∧
    (utest_evaluate_binary_op (SrcLoc.mk "t.cpp" 3) "2+2 == 5" "=="
        (fun a b : Nat => a == b) (fun n => toString n)
        (fun p : Nat × Nat => ((p.1 + 1, p.2), 2 + 2))
        (fun p : Nat × Nat => ((p.1, p.2 + 1), 5)) false
        (utest_begin_module "m") (0, 0)).ustate.out =
      ["t.cpp:3: [m/]: check \x7b2+2 == 5\x7d failed \x7b4 == 5\x7d!"] := by
  have h := C9_relational_once_and_diagnostic (Nat × Nat) Nat
    (SrcLoc.mk "t.cpp" 3) "2+2 == 5" "==" (fun a b => a == b)
    (fun n => toString n) (fun p => ((p.1 + 1, p.2), 2 + 2))
    (fun p => ((p.1, p.2 + 1), 5)) false (utest_begin_module "m") (0, 0)
  refine ⟨h.1, ?_⟩
  rw [h.2 rfl]
  rfl

/-- C10: the approximate-equality check evaluates each operand expression
twice — once inside the absolute difference and once inside the tolerance
scale term, so the final effect state is left, right, left, right applied in
order — in contrast with the relational check, whose final effect state is
one application of each operand. -/
theorem C10_close_operands_twice :
    ∀ (σ : Type) (loc : SrcLoc) (exprText : String) (render : ℚ → String)
      (left right : Expr σ ℚ) (epsilon : ℚ) (critical : Bool)
      (st : UState) (s : σ),
    (utest_evaluate_close loc exprText render left right epsilon critical
        st s).estate =
      (right (left (right (left s).1).1).1).1 ∧
    ∀ (α : Type) (opText : String) (cmp : α → α → Bool)
      (render2 : α → String) (l2 r2 : Expr σ α),
      (utest_evaluate_binary_op loc exprText opText cmp render2 l2 r2
          critical st s).estate = (r2 (l2 s).1).1 := by
  intro σ loc exprText render left right epsilon critical st s
  constructor
  · rw [utest_evaluate_close_as_less, utest_evaluate_binary_op_estate]
  · intro α opText cmp render2 l2 r2
    exact utest_evaluate_binary_op_estate loc exprText opText cmp render2
      l2 r2 critical st s
